import Mathlib

/-!
Verification of the TraitBank agent core together with its natural-language
specification.  The Python sources are embedded shallowly: JSON payloads become
an inductive `Json` type, the record counters and response validators of
`src/agent.py`, `src/models/taxon.py` and `src/models/traits.py` become
computable functions, and the two-step resolution pipeline `fetch_data` becomes
a pure function over an `Env` that models the two HTTP tool calls of
`src/tools.py` (which are external collaborators).
-/

/-- JSON values as decoded by `response.json()` in `src/tools.py`.  Numbers are
modelled as integers; no payload relevant to the verified properties carries a
fractional number. -/
inductive Json where
  | null : Json
  | bool (b : Bool) : Json
  | num (n : Int) : Json
  | str (s : String) : Json
  | arr (xs : List Json) : Json
  | obj (kvs : List (String × Json)) : Json

/-- Python truthiness test `isinstance(x, dict)` specialised to whether a JSON
value is a mapping. -/
def Json.isObj : Json → Bool
  | Json.obj _ => true
  | _ => false

/-- Python truthiness of a decoded JSON value (used by
`if taxon_count > 0 and taxon_data_root:` in `src/agent.py`). -/
def jsonTruthy : Json → Bool
  | Json.null => false
  | Json.bool b => b
  | Json.num n => n != 0
  | Json.str s => s != ""
  | Json.arr xs => !xs.isEmpty
  | Json.obj kvs => !kvs.isEmpty

/-- `TraitBankAgent._count_taxon_records` (src/agent.py lines 101-105):
returns 0 when the root is `None` or not a `dict`, otherwise
`len(root.keys())`. -/
def count_taxon_records : Option Json → Nat
  | none => 0
  | some (Json.obj kvs) => kvs.length
  | some _ => 0

/-- The accumulator loop of `TraitBankAgent._count_trait_records`
(src/agent.py lines 112-115): `total += len(v)` for every value `v` that is a
`list`; all other values are skipped. -/
def count_trait_loop : List (String × Json) → Nat → Nat
  | [], total => total
  | (_, Json.arr xs) :: rest, total => count_trait_loop rest (total + xs.length)
  | _ :: rest, total => count_trait_loop rest total

/-- `TraitBankAgent._count_trait_records` (src/agent.py lines 108-116):
returns 0 when the root is `None` or not a `dict`, otherwise runs the
accumulator loop over the values. -/
def count_trait_records : Option Json → Nat
  | none => 0
  | some (Json.obj kvs) => count_trait_loop kvs 0
  | some _ => 0

/-- Whether an optional pydantic field of type `Optional[Union[str, int]]`
accepts the given JSON value. -/
def okStrInt : Json → Bool
  | Json.null => true
  | Json.str _ => true
  | Json.num _ => true
  | _ => false

/-- Whether an optional pydantic field of type `Optional[str]` accepts the
given JSON value. -/
def okStr : Json → Bool
  | Json.null => true
  | Json.str _ => true
  | _ => false

/-- Whether an optional pydantic field of type `Optional[Union[str, bool]]`
accepts the given JSON value. -/
def okStrBool : Json → Bool
  | Json.null => true
  | Json.str _ => true
  | Json.bool _ => true
  | _ => false

/-- A named field of a JSON object validates when absent, or when present with
an acceptable value (pydantic fields here are all optional; unknown fields are
ignored). -/
def fieldOk (kvs : List (String × Json)) (name : String) (ok : Json → Bool) : Bool :=
  match List.lookup name kvs with
  | none => true
  | some v => ok v

/-- Shape validation of one `TaxonData` record (src/models/taxon.py lines
55-106): a mapping whose nine known fields, when present, have acceptable
types. -/
def validTaxonData : Json → Bool
  | Json.obj kvs =>
      fieldOk kvs "taxonID" okStrInt && fieldOk kvs "taxon" okStr &&
      fieldOk kvs "author" okStr && fieldOk kvs "rank" okStr &&
      fieldOk kvs "validID" okStrInt && fieldOk kvs "valid_taxon" okStr &&
      fieldOk kvs "valid_author" okStr && fieldOk kvs "status" okStr &&
      fieldOk kvs "source_of_synonymy" okStrBool
  | _ => false

/-- Shape validation of one `TaxonDataMinimal` record (src/models/taxon.py
lines 109-125). -/
def validTaxonDataMinimal : Json → Bool
  | Json.obj kvs => fieldOk kvs "taxonID" okStrInt && fieldOk kvs "taxon" okStr
  | _ => false

/-- `TaxonDataResponse.model_validate` (src/models/taxon.py lines 128-162):
the root is a mapping from IDs to `TaxonData`, a list of `TaxonData`, or a
list of `TaxonDataMinimal`.  Validation never mutates the payload, so a
successful result is represented by the payload itself. -/
def validateTaxonResponse : Json → Option Json
  | Json.obj kvs =>
      if kvs.all (fun kv => validTaxonData kv.2) then some (Json.obj kvs) else none
  | Json.arr xs =>
      if xs.all validTaxonData then some (Json.arr xs)
      else if xs.all validTaxonDataMinimal then some (Json.arr xs)
      else none
  | _ => none

/-- Shape validation of one verbose `TraitData` record (src/models/traits.py
lines 48-179). -/
def validTraitData : Json → Bool
  | Json.obj kvs =>
      fieldOk kvs "taxon" okStr && fieldOk kvs "author" okStr &&
      fieldOk kvs "rank" okStr && fieldOk kvs "valid_taxon" okStr &&
      fieldOk kvs "valid_author" okStr && fieldOk kvs "taxonomic_status" okStr &&
      fieldOk kvs "source_of_synonymy" okStrBool && fieldOk kvs "parent" okStr &&
      fieldOk kvs "trait" okStr && fieldOk kvs "category" okStr &&
      fieldOk kvs "category_abbreviation" okStr && fieldOk kvs "traitvalue" okStrInt &&
      fieldOk kvs "reference" okStr && fieldOk kvs "doi" okStrBool &&
      fieldOk kvs "value_creator" okStr && fieldOk kvs "value_creation_date" okStr &&
      fieldOk kvs "value_modified_by" okStr && fieldOk kvs "value_modification_date" okStr &&
      fieldOk kvs "text_excerpt" okStr && fieldOk kvs "text_excerpt_creator" okStrBool &&
      fieldOk kvs "text_excerpt_creation_date" okStrBool &&
      fieldOk kvs "text_excerpt_modified_by" okStrBool &&
      fieldOk kvs "text_excerpt_modification_date" okStrBool
  | _ => false

/-- Shape validation of one `TraitDataMinimal` record (src/models/traits.py
lines 181-203). -/
def validTraitDataMinimal : Json → Bool
  | Json.obj kvs =>
      fieldOk kvs "trait" okStr && fieldOk kvs "category" okStr &&
      fieldOk kvs "traitvalue" okStrInt
  | _ => false

/-- A value of type `List[TraitX]`: a JSON array whose elements all validate
as the given record shape. -/
def isTraitList (valid : Json → Bool) : Json → Bool
  | Json.arr xs => xs.all valid
  | _ => false

/-- `TraitDataResponse.model_validate` (src/models/traits.py lines 205-255):
the root is a mapping from IDs to lists of (verbose or minimal) trait records,
or a list of such lists. -/
def validateTraitResponse : Json → Option Json
  | Json.obj kvs =>
      if kvs.all (fun kv => isTraitList validTraitData kv.2) then some (Json.obj kvs)
      else if kvs.all (fun kv => isTraitList validTraitDataMinimal kv.2) then some (Json.obj kvs)
      else none
  | Json.arr xs =>
      if xs.all (isTraitList validTraitData) then some (Json.arr xs)
      else if xs.all (isTraitList validTraitDataMinimal) then some (Json.arr xs)
      else none
  | _ => none

/-- Hexadecimal digit used by percent-encoding (uppercase, as in Python
`urllib.parse.quote`). -/
def hexDigit (n : Nat) : Char :=
  if n < 10 then Char.ofNat (48 + n) else Char.ofNat (55 + n)

/-- Bytes that `urllib.parse.quote` leaves unescaped with the default
`safe` set: ASCII letters, digits, underscore, dot, hyphen, tilde and the
slash. -/
def isAlwaysSafeByte (n : Nat) : Bool :=
  (65 ≤ n && n ≤ 90) || (97 ≤ n && n ≤ 122) || (48 ≤ n && n ≤ 57) ||
  n == 95 || n == 46 || n == 45 || n == 126 || n == 47

/-- Percent-encoding of a single UTF-8 byte. -/
def quoteByteStr (n : Nat) : String :=
  if isAlwaysSafeByte n then String.mk [Char.ofNat n]
  else String.mk [Char.ofNat 37, hexDigit (n / 16), hexDigit (n % 16)]

/-- `urllib.parse.quote` with the default `safe` set, as used in
`src/tools.py` and `src/agent.py`. -/
def quote (s : String) : String :=
  String.join (s.toUTF8.toList.map (fun b => quoteByteStr b.toNat))

/-- `TRAITBANK_BASE_URL` from src/tools.py line 7. -/
def TRAITBANK_BASE_URL : String := "https://traitbank-reconnect.hcmr.gr"

/-- `TraitBankTools._get_query_params` (src/tools.py lines 25-34): always
verbose and associative; the exact flag is added only for taxon searches. -/
def get_query_params (data_type : String) : List (String × String) :=
  let params := [("verbose", "1"), ("assoc", "1")]
  if data_type == "taxon" then params ++ [("exact", "1")] else params

/-- `TraitBankTools._generate_uri` (src/tools.py lines 16-22). -/
def generate_uri (url : String) (query_params : List (String × String)) : String :=
  if !query_params.isEmpty then
    url ++ "?" ++ String.intercalate "&" (query_params.map (fun kv => kv.1 ++ "=" ++ kv.2))
  else url

/-- The request URI built by `TraitBankTools.fetch_taxon_data_by_name`
(src/tools.py lines 46-49). -/
def fetch_taxon_uri (taxon_name : String) : String :=
  generate_uri (TRAITBANK_BASE_URL ++ "/taxon/" ++ quote taxon_name ++ "/")
    (get_query_params "taxon")

/-- The request URI built by `TraitBankTools.fetch_trait_data_by_ids`
(src/tools.py lines 74-76). -/
def fetch_trait_uri (taxon_ids_query : String) : String :=
  generate_uri (TRAITBANK_BASE_URL ++ "/traits/" ++ taxon_ids_query ++ "/")
    (get_query_params "trait")

/-- The `TraitBankRequest` pydantic model fields (src/agent.py lines 22-38). -/
structure TraitBankRequestV where
  name : Option String
  id : Option String

/-- Python truthiness of an `Optional[str]`: `None` and the empty string are
falsy. -/
def truthy : Option String → Bool
  | none => false
  | some s => s != ""

/-- `TraitBankRequest.check_and_prioritize_input` (src/agent.py lines 40-52):
when both name and id are truthy the id is nullified; when neither is truthy a
`ValueError` is raised, modelled as `Except.error`. -/
def check_and_prioritize_input (data : TraitBankRequestV) : Except String TraitBankRequestV :=
  if truthy data.name && truthy data.id then Except.ok { name := data.name, id := none }
  else if !truthy data.name && !truthy data.id then
    Except.error "Either \"name\" or \"id\" must be provided."
  else Except.ok data

/-- Outcome of one HTTP tool call (`src/tools.py`): the transport collaborator
either raises `httpx.HTTPStatusError`, raises `httpx.RequestError`, raises some
other exception, or returns `(body, uri)` where the body is `None` for an
empty or unparseable response. -/
inductive ToolResult where
  | httpStatusError (status : Nat) (reason : String) (url : String) : ToolResult
  | requestError (msg : String) (url : String) : ToolResult
  | otherError (msg : String) : ToolResult
  | ok (body : Option Json) (uri : String) : ToolResult

/-- The external collaborators of the pipeline: the two HTTP tools and the
rendering of pydantic validation errors (`str(ve)`), which the pipeline only
interpolates into messages. -/
structure Env where
  taxonFetch : String → ToolResult
  traitFetch : String → ToolResult
  veText : Json → String

/-- Artifact metadata of the taxon step (src/agent.py lines 204-211). -/
structure TaxonMeta where
  taxon_name_query : String
  query_params : List (String × String)
  result_count : Nat
  validated : Bool
  retrieved_taxon_ids : List String
  taxon_data_root : Option Json

/-- Artifact metadata of the trait step (src/agent.py lines 309-315). -/
structure TraitMeta where
  taxon_ids_queried : List String
  query_params : List (String × String)
  trait_count : Nat
  validated : Bool
  trait_data_root : Option Json

/-- Messages yielded by `TraitBankAgent.fetch_data`: process updates, user
facing text, and the two artifact kinds. -/
inductive Msg where
  | process (summary description : String) : Msg
  | text (t : String) : Msg
  | taxonArtifact (description : String) (uris : List String) (meta : TaxonMeta) : Msg
  | traitArtifact (description : String) (uris : List String) (meta : TraitMeta) : Msg

/-- Worker of Python `str.split(sep)` for a one-character separator: cuts the
character list at every separator occurrence, keeping empty segments. -/
def splitCommaAux : List Char → List Char → List String
  | [], acc => [String.mk acc.reverse]
  | ch :: rest, acc =>
      if ch == ',' then String.mk acc.reverse :: splitCommaAux rest []
      else splitCommaAux rest (ch :: acc)

/-- Python `s.split(",")`: like `String.splitOn` but defined by structural
recursion so that concrete inputs evaluate. -/
def pySplitComma (s : String) : List String :=
  splitCommaAux s.data []

/-- Python whitespace recognised by `str.strip()`: space, tab, newline,
carriage return, vertical tab and form feed. -/
def isPySpace (c : Char) : Bool :=
  c == ' ' || c == '\t' || c == '\n' || c == '\r' || c == Char.ofNat 11 || c == Char.ofNat 12

/-- Python `str.strip()`: removes leading and trailing whitespace. -/
def pyStrip (s : String) : String :=
  String.mk ((s.data.dropWhile isPySpace).reverse.dropWhile isPySpace).reverse

/-- ID normalization of caller input (src/agent.py line 234): split on commas,
strip each segment, discard blanks. -/
def splitIds (s : String) : List String :=
  ((pySplitComma s).map pyStrip).filter (fun t => t != "")

/-- Key extraction from a validated taxon root (src/agent.py line 201):
`[str(tid).strip() for tid in root.keys() if str(tid).strip()]`. -/
def extractIds : Json → List String
  | Json.obj kvs => ((kvs.map (fun kv => kv.1)).map pyStrip).filter (fun t => t != "")
  | _ => []

/-- The guarded ID extraction of src/agent.py lines 199-201: IDs are read only
when the taxon count is positive and the root is truthy. -/
def found_taxon_ids (root : Json) : List String :=
  if count_taxon_records (some root) > 0 && jsonTruthy root then extractIds root else []

/-- `TraitBankAgent._generate_summary_text` (src/agent.py lines 119-140). -/
def generate_summary_text (data_root : Option Json) (count : Nat)
    (query_identifier : String) (data_type : String) : String :=
  let format_desc := "associative array (dictionary) with taxon IDs as keys"
  if count == 0 then
    if data_type == "taxon" then
      "No taxon records found for name \x27" ++ query_identifier ++ "\x27."
    else
      "No trait records found for taxon ID(s): " ++ query_identifier ++ "."
  else if data_type == "taxon" then
    "Found " ++ toString count ++ " taxon record(s) for name \x27" ++ query_identifier ++
      "\x27. Results returned as " ++ format_desc ++ "."
  else
    let num_taxa_with_traits :=
      match data_root with
      | some (Json.obj kvs) => kvs.length
      | _ => 0
    if num_taxa_with_traits > 0 then
      "Retrieved " ++ toString count ++ " trait record(s) across " ++
        toString num_taxa_with_traits ++ " taxon/taxa for ID(s): " ++ query_identifier ++
        ". Results returned as " ++ format_desc ++ "."
    else
      "Retrieved " ++ toString count ++ " trait record(s) for taxon ID(s): " ++
        query_identifier ++ ". Results returned as " ++ format_desc ++ "."

/-- Error text of src/agent.py lines 264-266, grouped to the right so that the
interpolated parts are syntactically visible. -/
def traitHttpErrorMsg (qid : String) (status : Nat) (reason url : String) : String :=
  "API error fetching trait data for ID(s) \x27" ++
    (qid ++ ("\x27: " ++ (toString status ++ (" " ++ (reason ++ (". URL: " ++ url))))))

/-- Warning text of src/agent.py lines 294-296 (trait validation failure). -/
def traitValidationWarnMsg (qid veStr : String) : String :=
  "Warning: Trait API response validation failed for ID(s) \x27" ++ qid ++ "\x27: " ++
    veStr ++ ". Proceeding with raw data."

/-- Warning text of src/agent.py lines 191-193 (taxon validation failure). -/
def taxonValidationWarnMsg (pfx veStr : String) : String :=
  "Warning: Taxon API response validation failed " ++ pfx ++ ": " ++ veStr ++
    ". Trait fetching cannot proceed."

/-- The reporting tail of the trait step (src/agent.py lines 300-327): the
dead None-check, the raw-data zero-count warning, the artifact, the summary
text and the completion process message. -/
def traitReport (qid : String) (trait_data_root : Option Json)
    (is_trait_data_validated : Bool) (uri : String) : List Msg :=
  match trait_data_root with
  | none =>
      [Msg.text ("Trait data is unexpectedly None after validation attempt for ID(s) \x27" ++
        qid ++ "\x27. Cannot proceed.")]
  | some root =>
      let trait_count := count_trait_records (some root)
      (if trait_count == 0 && !is_trait_data_validated then
        [Msg.text ("No parsable trait records found in the raw (unvalidated) data for ID(s) \x27" ++
          qid ++ "\x27.")]
      else []) ++
      Msg.traitArtifact
        ("Trait data for taxon ID(s): " ++ qid ++
          (if is_trait_data_validated then "" else " (validation failed, raw data)"))
        (if uri == "" then [] else [quote uri])
        { taxon_ids_queried := pySplitComma qid
          query_params := get_query_params "trait"
          trait_count := trait_count
          validated := is_trait_data_validated
          trait_data_root := some root } ::
      Msg.text (generate_summary_text (some root) trait_count qid "trait") ::
      [Msg.process "Trait data fetch completed"
        ("Completed trait data retrieval for ID(s): **" ++ qid ++ "**")]

/-- Validation of the trait body (src/agent.py lines 281-298): on success the
validated root is used; on `ValidationError` a warning is emitted and the raw
body is used with the validated flag cleared. -/
def traitValidateFlow (env : Env) (qid : String) (raw : Json) (uri : String) : List Msg :=
  match validateTraitResponse raw with
  | some root =>
      Msg.process "Validating trait response"
        ("Successfully validated API response for trait data for ID(s) \x27" ++ qid ++ "\x27.") ::
      traitReport qid (some root) true uri
  | none =>
      Msg.text (traitValidationWarnMsg qid (env.veText raw)) ::
      traitReport qid (some raw) false uri

/-- The trait-fetching step (src/agent.py lines 249-327): the dead empty
target check, the step-2 process message, the tool call with its per-error
handlers, the empty-body check and the validation flow. -/
def traitFlow (env : Env) (pfx target_taxon_ids_str qid : String) : List Msg :=
  if target_taxon_ids_str == "" then
    [Msg.text ("No target taxon IDs to fetch trait data for " ++ pyStrip pfx ++ ".")]
  else
    Msg.process "Fetching trait data"
      ("Step 2: Fetching trait data for taxon ID(s): **" ++ qid ++ "**.") ::
    match env.traitFetch target_taxon_ids_str with
    | ToolResult.httpStatusError st rs u => [Msg.text (traitHttpErrorMsg qid st rs u)]
    | ToolResult.requestError m u =>
        [Msg.text ("Request error fetching trait data for ID(s) \x27" ++ qid ++ "\x27: " ++
          m ++ ". URL: " ++ u)]
    | ToolResult.otherError m =>
        [Msg.text ("Error calling trait data tool for ID(s) \x27" ++ qid ++ "\x27: " ++ m)]
    | ToolResult.ok none _ =>
        [Msg.text ("No data returned from trait API for ID(s) \x27" ++ qid ++ "\x27.")]
    | ToolResult.ok (some raw) uri => traitValidateFlow env qid raw uri

/-- The direct-ID branch of step 1 (src/agent.py lines 233-244). -/
def idFlow (env : Env) (idStr : String) : List Msg :=
  let valid_ids := splitIds idStr
  if valid_ids.isEmpty then
    [Msg.text ("No valid taxon IDs provided in input: \x27" ++ idStr ++ "\x27.")]
  else
    let target := String.intercalate "," valid_ids
    Msg.process "Taxon ID(s) provided"
      ("Step 1: Using provided taxon ID(s): **" ++ target ++ "**.") ::
    traitFlow env ("for ID(s) \x27" ++ target ++ "\x27") target target

/-- Validation and reporting of the taxon body (src/agent.py lines 181-232):
on `ValidationError` the pipeline halts; otherwise the count, the extracted
IDs, the artifact and the summary are produced, and the pipeline either halts
(no IDs) or continues to the trait step. -/
def taxonValidateFlow (env : Env) (name : String) (raw : Json) (uri : String) : List Msg :=
  let pfx := "for name \x27" ++ name ++ "\x27"
  match validateTaxonResponse raw with
  | none => [Msg.text (taxonValidationWarnMsg pfx (env.veText raw))]
  | some root =>
      Msg.process "Validating taxon response"
        ("Successfully validated API response for taxon data " ++ pfx ++ ".") ::
      let taxon_count := count_taxon_records (some root)
      let found := found_taxon_ids root
      Msg.taxonArtifact ("Taxon search results " ++ pfx)
        (if uri == "" then [] else [quote uri])
        { taxon_name_query := name
          query_params := get_query_params "taxon"
          result_count := taxon_count
          validated := true
          retrieved_taxon_ids := found
          taxon_data_root := some root } ::
      Msg.text (generate_summary_text (some root) taxon_count name "taxon") ::
      if found.isEmpty then
        [Msg.text ("No matching taxon IDs found " ++ pfx ++
          ". Unable to proceed to fetch trait data.")]
      else
        let target := String.intercalate "," found
        Msg.process "Taxon ID(s) obtained"
          ("Step 1.1: Successfully resolved taxon ID(s): **" ++ target ++ "** " ++ pfx ++ ".") ::
        traitFlow env pfx target target

/-- The name branch of step 1 (src/agent.py lines 151-232): the step-1 process
message, the taxon tool call with its per-error handlers, the empty-body check
and the validation flow. -/
def nameFlow (env : Env) (name : String) : List Msg :=
  let pfx := "for name \x27" ++ name ++ "\x27"
  Msg.process "Taxon name provided"
    ("Step 1: Searching for taxon information " ++ pfx) ::
  match env.taxonFetch name with
  | ToolResult.httpStatusError st rs u =>
      [Msg.text ("API error fetching taxon data " ++ pfx ++ ": " ++ toString st ++ " " ++
        rs ++ ". URL: " ++ u)]
  | ToolResult.requestError m u =>
      [Msg.text ("Request error fetching taxon data " ++ pfx ++ ": " ++ m ++ ". URL: " ++ u)]
  | ToolResult.otherError m =>
      [Msg.text ("Error calling taxon data tool " ++ pfx ++ ": " ++ m)]
  | ToolResult.ok none _ =>
      [Msg.text ("No data returned from taxon search API " ++ pfx ++ ".")]
  | ToolResult.ok (some raw) uri => taxonValidateFlow env name raw uri

/-- `TraitBankAgent.fetch_data` (src/agent.py lines 143-332) as a pure
function of the external environment and the validated request.  The outer
`except ValueError` and `except Exception` handlers of lines 329-332 are
unreachable here: every tool exception is handled at its step boundary and the
two `model_validate` calls are wrapped in their own handlers. -/
def fetch_data (env : Env) (params : TraitBankRequestV) : List Msg :=
  if truthy params.name then
    nameFlow env (params.name.getD "")
  else if truthy params.id then
    idFlow env (params.id.getD "")
  else
    [Msg.text "Internal error: No taxon name or ID was specified after request validation."]

/-- String concatenation is associative (at the level of the underlying
character lists). -/
theorem str_append_assoc (a b c : String) : a ++ b ++ c = a ++ (b ++ c) := by
  rcases a with ⟨la⟩; rcases b with ⟨lb⟩; rcases c with ⟨lc⟩
  show String.mk ((la ++ lb) ++ lc) = String.mk (la ++ (lb ++ lc))
  rw [List.append_assoc]

/-- The accumulator loop of the trait counter computes the sum, over the
values of the mapping, of the length of each value that is a sequence; other
values contribute nothing. -/
theorem count_trait_loop_eq (kvs : List (String × Json)) (acc : Nat) :
    count_trait_loop kvs acc =
      acc + (kvs.map (fun kv =>
        match kv.2 with
        | Json.arr xs => xs.length
        | _ => 0)).sum := by
  induction kvs generalizing acc with
  | nil => simp [count_trait_loop]
  | cons kv rest ih =>
      obtain ⟨k, v⟩ := kv
      cases v <;> simp [count_trait_loop, ih, Nat.add_assoc]

/-- C1, counterexample: the trait counter applied to the list-of-lists
payload of the claim returns 0, not 3, because both counters return 0 for any
payload that is not a mapping. -/
theorem c1_list_payload_counterexample :
    ¬ (count_trait_records
        (some (Json.arr [Json.arr [Json.num 1, Json.num 2], Json.arr [Json.num 3]])) = 3) := by
  decide

/-- C1 (amended): for every sequence payload the record counter returns 0 in
both taxon and trait mode — sequences are never counted, only mappings are; in
particular the count of a list of lists and of a flat list is 0 in trait
mode. -/
theorem c1_sequence_payload_counts_zero (xs : List Json) (a b c : Json) :
    count_taxon_records (some (Json.arr xs)) = 0 ∧
    count_trait_records (some (Json.arr xs)) = 0 ∧
    count_trait_records (some (Json.arr [Json.arr [a, b], Json.arr [c]])) = 0 ∧
    count_trait_records (some (Json.arr [a, b, c])) = 0 ∧
    count_taxon_records (some (Json.arr [a, b, c])) = 0 :=
  ⟨rfl, rfl, rfl, rfl, rfl⟩

/-- C2, counterexample: a mapping value that is non-null but not a sequence
contributes 0 to the trait count, not 1 as the claim states. -/
theorem c2_nonlist_value_counterexample :
    ¬ (count_trait_records (some (Json.obj [("94", Json.num 7)])) = 1) := by
  decide

/-- C2 (amended): for every mapping payload the record counter returns, in
taxon mode, the number of keys and, in trait mode, the sum over all values of
(the length of the value if it is a sequence, else 0 — a non-sequence value
contributes nothing whether or not it is null); the concrete examples of the
claim hold unchanged. -/
theorem c2_mapping_payload_counts (kvs : List (String × Json)) (a b c x y : Json) :
    count_taxon_records (some (Json.obj kvs)) = kvs.length ∧
    count_trait_records (some (Json.obj kvs)) =
      (kvs.map (fun kv =>
        match kv.2 with
        | Json.arr v => v.length
        | _ => 0)).sum ∧
    count_trait_records (some (Json.obj [("94", Json.arr [a, b, c]), ("95", Json.arr [])])) = 3 ∧
    count_taxon_records (some (Json.obj [("94", x), ("95", y)])) = 2 := by
  refine ⟨rfl, ?_, rfl, rfl⟩
  simpa using count_trait_loop_eq kvs 0

/-- C3: both record counters are total functions; they return 0 on a null
payload, on the empty mapping, on the empty sequence, and on every payload
that is not a mapping (for example a string), rather than raising. -/
theorem c3_counter_totality (j : Json) (h : j.isObj = false) :
    count_taxon_records none = 0 ∧ count_trait_records none = 0 ∧
    count_taxon_records (some (Json.obj [])) = 0 ∧
    count_trait_records (some (Json.obj [])) = 0 ∧
    count_taxon_records (some (Json.arr [])) = 0 ∧
    count_trait_records (some (Json.arr [])) = 0 ∧
    count_taxon_records (some j) = 0 ∧ count_trait_records (some j) = 0 := by
  refine ⟨rfl, rfl, rfl, rfl, rfl, rfl, ?_, ?_⟩ <;>
    cases j <;>
    simp_all [count_taxon_records, count_trait_records, Json.isObj]

/-- Witness for C3 at a string payload where a mapping was expected. -/
theorem c3_counter_totality_witness :
    Json.isObj (Json.str "wrong type") = false ∧
    count_taxon_records (some (Json.str "wrong type")) = 0 ∧
    count_trait_records (some (Json.str "wrong type")) = 0 :=
  ⟨rfl, (c3_counter_totality (Json.str "wrong type") rfl).2.2.2.2.2.2.1,
    (c3_counter_totality (Json.str "wrong type") rfl).2.2.2.2.2.2.2⟩

/-- C7: the query-parameter policy is the fixed mapping from the lookup kind:
taxon lookups carry exactly verbose, assoc and exact (all enabled), trait
lookups carry exactly verbose and assoc with no exact flag, and the request
URIs built by the tools append exactly these flags. -/
theorem c7_query_param_policy (t ids : String) :
    get_query_params "taxon" = [("verbose", "1"), ("assoc", "1"), ("exact", "1")] ∧
    get_query_params "trait" = [("verbose", "1"), ("assoc", "1")] ∧
    List.lookup "exact" (get_query_params "trait") = none ∧
    fetch_taxon_uri t =
      TRAITBANK_BASE_URL ++ "/taxon/" ++ quote t ++ "/" ++ "?verbose=1&assoc=1&exact=1" ∧
    fetch_trait_uri ids =
      TRAITBANK_BASE_URL ++ "/traits/" ++ ids ++ "/" ++ "?verbose=1&assoc=1" := by
  refine ⟨rfl, rfl, rfl, ?_, ?_⟩
  · have h1 : fetch_taxon_uri t =
        (TRAITBANK_BASE_URL ++ "/taxon/" ++ quote t ++ "/" ++ "?") ++
          "verbose=1&assoc=1&exact=1" := rfl
    rw [h1]
    simp only [str_append_assoc]
    rfl
  · have h1 : fetch_trait_uri ids =
        (TRAITBANK_BASE_URL ++ "/traits/" ++ ids ++ "/" ++ "?") ++ "verbose=1&assoc=1" := rfl
    rw [h1]
    simp only [str_append_assoc]
    rfl

/-- C5: when both a name and an id are supplied the pre-validator keeps the
name and nullifies the id, and the pipeline output for a truthy name never
depends on the id field at all (so the id is not consulted even when name
resolution fails in any way the environment can produce); when neither a name
nor an id is supplied, the pre-validator rejects the request with the
input-validation error, before any network call can happen. -/
theorem c5_name_priority (env : Env) (n i : String) (hn : n ≠ "") (hi : i ≠ "")
    (m j : Option String) (hm : truthy m = false) (hj : truthy j = false) :
    check_and_prioritize_input ⟨some n, some i⟩ = Except.ok ⟨some n, none⟩ ∧
    (∀ id2 : Option String, fetch_data env ⟨some n, id2⟩ = fetch_data env ⟨some n, none⟩) ∧
    check_and_prioritize_input ⟨m, j⟩ =
      Except.error "Either \"name\" or \"id\" must be provided." := by
  have hn' : (n != "") = true := by simp [hn]
  have hi' : (i != "") = true := by simp [hi]
  refine ⟨?_, ?_, ?_⟩
  · simp [check_and_prioritize_input, truthy, hn', hi']
  · intro id2
    simp [fetch_data, truthy, hn']
  · simp [check_and_prioritize_input, hm, hj]

/-- Witness for C5 with the name Anadara and the id 12345. -/
theorem c5_name_priority_witness :
    ("Anadara" ≠ "") ∧ truthy (none : Option String) = false ∧
    check_and_prioritize_input ⟨some "Anadara", some "12345"⟩ =
      Except.ok ⟨some "Anadara", none⟩ ∧
    check_and_prioritize_input ⟨none, none⟩ =
      Except.error "Either \"name\" or \"id\" must be provided." := by
  have h := c5_name_priority
    ⟨fun _ => ToolResult.otherError "boom", fun _ => ToolResult.otherError "boom", fun _ => ""⟩
    "Anadara" "12345" (by decide) (by decide) none none rfl rfl
  exact ⟨by decide, rfl, h.1, h.2.2⟩

/-- C6: caller-supplied id strings are split on commas, each segment stripped,
blanks discarded; the all-blank input yields the input-validation text with no
trait lookup issued (the output is a fixed singleton, independent of the
environment), and the input with spaces and a trailing comma resolves to the
ids 94 and 95 in order, joined with commas as the trait-lookup target. -/
theorem c6_id_parsing :
    splitIds ",," = [] ∧
    (∀ env : Env, fetch_data env ⟨none, some ",,"⟩ =
      [Msg.text "No valid taxon IDs provided in input: \x27,,\x27."]) ∧
    splitIds "94, 95 ," = ["94", "95"] ∧
    String.intercalate "," (splitIds "94, 95 ,") = "94,95" ∧
    (∀ env : Env, fetch_data env ⟨none, some "94, 95 ,"⟩ =
      Msg.process "Taxon ID(s) provided" "Step 1: Using provided taxon ID(s): **94,95**." ::
        traitFlow env "for ID(s) \x2794,95\x27" "94,95" "94,95") ∧
    (∀ env : Env, fetch_data env ⟨none, some "94, 95 ,"⟩ =
      fetch_data env ⟨none, some "94,95"⟩) :=
  ⟨rfl, fun _ => rfl, rfl, rfl, fun _ => rfl, fun _ => rfl⟩

/-- A message that terminates the pipeline output: a user-facing text (the
conversion of every error, and every data summary) or the final completion
process message. -/
def isTerminalReport : Msg → Bool
  | Msg.text _ => true
  | Msg.process s _ => s == "Trait data fetch completed"
  | _ => false

/-- The output ends in a terminal report. -/
def lastTerminal (l : List Msg) : Prop :=
  ∃ m, l.getLast? = some m ∧ isTerminalReport m = true

theorem lastTerminal_append (l₁ l₂ : List Msg) (h : lastTerminal l₂) :
    lastTerminal (l₁ ++ l₂) := by
  obtain ⟨m, hm, ht⟩ := h
  have hne : l₂ ≠ [] := by rintro rfl; simp [List.getLast?] at hm
  exact ⟨m, by rw [List.getLast?_append_of_ne_nil l₁ hne, hm], ht⟩

theorem lastTerminal_cons (m : Msg) (l : List Msg) (h : lastTerminal l) :
    lastTerminal (m :: l) :=
  lastTerminal_append [m] l h

theorem traitReport_terminal (qid : String) (r : Option Json) (v : Bool) (uri : String) :
    lastTerminal (traitReport qid r v uri) := by
  cases r with
  | none => exact ⟨_, rfl, rfl⟩
  | some root =>
      simp only [traitReport]
      exact lastTerminal_append _ _ ⟨_, rfl, rfl⟩

theorem traitValidateFlow_terminal (env : Env) (qid : String) (raw : Json) (uri : String) :
    lastTerminal (traitValidateFlow env qid raw uri) := by
  simp only [traitValidateFlow]
  cases hv : validateTraitResponse raw with
  | none => exact lastTerminal_cons _ _ (traitReport_terminal qid (some raw) false uri)
  | some root => exact lastTerminal_cons _ _ (traitReport_terminal qid (some root) true uri)

theorem traitFlow_terminal (env : Env) (pfx target qid : String) :
    lastTerminal (traitFlow env pfx target qid) := by
  simp only [traitFlow]
  split
  · exact ⟨_, rfl, rfl⟩
  · refine lastTerminal_cons _ _ ?_
    cases henv : env.traitFetch target with
    | httpStatusError st rs u => exact ⟨_, rfl, rfl⟩
    | requestError m u => exact ⟨_, rfl, rfl⟩
    | otherError m => exact ⟨_, rfl, rfl⟩
    | ok body uri =>
        cases body with
        | none => exact ⟨_, rfl, rfl⟩
        | some raw => exact traitValidateFlow_terminal env qid raw uri

theorem taxonValidateFlow_terminal (env : Env) (name : String) (raw : Json) (uri : String) :
    lastTerminal (taxonValidateFlow env name raw uri) := by
  simp only [taxonValidateFlow]
  cases hv : validateTaxonResponse raw with
  | none => exact ⟨_, rfl, rfl⟩
  | some root =>
      refine lastTerminal_cons _ _ (lastTerminal_cons _ _ (lastTerminal_cons _ _ ?_))
      split
      · exact ⟨_, rfl, rfl⟩
      · exact lastTerminal_cons _ _ (traitFlow_terminal env _ _ _)

theorem nameFlow_terminal (env : Env) (name : String) :
    lastTerminal (nameFlow env name) := by
  simp only [nameFlow]
  refine lastTerminal_cons _ _ ?_
  cases henv : env.taxonFetch name with
  | httpStatusError st rs u => exact ⟨_, rfl, rfl⟩
  | requestError m u => exact ⟨_, rfl, rfl⟩
  | otherError m => exact ⟨_, rfl, rfl⟩
  | ok body uri =>
      cases body with
      | none => exact ⟨_, rfl, rfl⟩
      | some raw => exact taxonValidateFlow_terminal env name raw uri

theorem idFlow_terminal (env : Env) (idStr : String) :
    lastTerminal (idFlow env idStr) := by
  simp only [idFlow]
  split
  · exact ⟨_, rfl, rfl⟩
  · exact lastTerminal_cons _ _ (traitFlow_terminal env _ _ _)

/-- C9: for every environment behaviour and every request, the pipeline
output is a nonempty message list whose final message is a terminal report —
a user-facing text (every error is converted at its step boundary into such a
text followed by a halt) or the completion process message; the embedding is a
total function, so no exception escapes to the caller. -/
theorem c9_terminal_report (env : Env) (params : TraitBankRequestV) :
    lastTerminal (fetch_data env params) := by
  simp only [fetch_data]
  split
  · exact nameFlow_terminal env _
  · split
    · exact idFlow_terminal env _
    · exact ⟨_, rfl, rfl⟩

/-- A sequence body that validates as a taxon response validates to itself. -/
theorem validateTaxon_arr_eq (xs : List Json) (r : Json)
    (h : validateTaxonResponse (Json.arr xs) = some r) : r = Json.arr xs := by
  simp only [validateTaxonResponse] at h
  split at h
  · exact (Option.some.inj h).symm
  · split at h
    · exact (Option.some.inj h).symm
    · exact absurd h (by simp)

/-- C10: when the taxon body validates with a sequence root (which the
response model accepts), the taxon count is 0, no IDs are extracted, and the
pipeline halts after the artifact with the no-records summary and the
no-matching-taxon-IDs message; the output is a fixed list that never consults
the trait tool. -/
theorem c10_sequence_taxon_root_halts (env : Env) (n : String) (hn : n ≠ "")
    (xs : List Json) (root : Json) (uri : String)
    (hf : env.taxonFetch n = ToolResult.ok (some (Json.arr xs)) uri)
    (hv : validateTaxonResponse (Json.arr xs) = some root) :
    count_taxon_records (some root) = 0 ∧
    found_taxon_ids root = [] ∧
    fetch_data env ⟨some n, none⟩ =
      [Msg.process "Taxon name provided"
         ("Step 1: Searching for taxon information " ++ ("for name \x27" ++ n ++ "\x27")),
       Msg.process "Validating taxon response"
         ("Successfully validated API response for taxon data " ++
           ("for name \x27" ++ n ++ "\x27") ++ "."),
       Msg.taxonArtifact ("Taxon search results " ++ ("for name \x27" ++ n ++ "\x27"))
         (if uri == "" then [] else [quote uri])
         { taxon_name_query := n
           query_params := get_query_params "taxon"
           result_count := 0
           validated := true
           retrieved_taxon_ids := []
           taxon_data_root := some (Json.arr xs) },
       Msg.text ("No taxon records found for name \x27" ++ n ++ "\x27."),
       Msg.text ("No matching taxon IDs found " ++ ("for name \x27" ++ n ++ "\x27") ++
         ". Unable to proceed to fetch trait data.")] := by
  have hroot : root = Json.arr xs := validateTaxon_arr_eq xs root hv
  subst hroot
  refine ⟨rfl, rfl, ?_⟩
  have e1 : fetch_data env ⟨some n, none⟩ = nameFlow env n := by
    simp [fetch_data, truthy, hn]
  rw [e1]
  simp only [nameFlow]
  rw [hf]
  simp only [taxonValidateFlow]
  rw [hv]
  rfl

/-- Environment used to witness C10: the taxon tool answers with an empty
sequence body, which the response model accepts. -/
def c10Env : Env :=
  { taxonFetch := fun _ => ToolResult.ok (some (Json.arr [])) "https://t/taxon/Abc/"
    traitFetch := fun _ => ToolResult.otherError "unused"
    veText := fun _ => "" }

/-- Witness for C10 at the empty-sequence taxon body. -/
theorem c10_sequence_taxon_root_halts_witness :
    ("Abc" ≠ "") ∧
    c10Env.taxonFetch "Abc" = ToolResult.ok (some (Json.arr [])) "https://t/taxon/Abc/" ∧
    validateTaxonResponse (Json.arr []) = some (Json.arr []) ∧
    count_taxon_records (some (Json.arr [])) = 0 ∧
    found_taxon_ids (Json.arr []) = [] := by
  have h := c10_sequence_taxon_root_halts c10Env "Abc" (by decide) [] (Json.arr [])
    "https://t/taxon/Abc/" rfl rfl
  exact ⟨by decide, rfl, rfl, h.1, h.2.1⟩

/-- C8: when the taxon step succeeds and resolves to the single ID 93 but the
trait lookup answers a non-2xx HTTP status, the pipeline output contains the
taxon artifact (already produced, with the resolved ID list) followed by the
trait step halting on a text message that contains both the resolved ID and
the status code. -/
theorem c8_trait_http_failure (env : Env) (n : String) (hn : n ≠ "")
    (raw root : Json) (uri : String) (st : Nat) (rs u : String)
    (hf : env.taxonFetch n = ToolResult.ok (some raw) uri)
    (hv : validateTaxonResponse raw = some root)
    (hids : found_taxon_ids root = ["93"])
    (ht : env.traitFetch "93" = ToolResult.httpStatusError st rs u) :
    fetch_data env ⟨some n, none⟩ =
      [Msg.process "Taxon name provided"
         ("Step 1: Searching for taxon information " ++ ("for name \x27" ++ n ++ "\x27")),
       Msg.process "Validating taxon response"
         ("Successfully validated API response for taxon data " ++
           ("for name \x27" ++ n ++ "\x27") ++ "."),
       Msg.taxonArtifact ("Taxon search results " ++ ("for name \x27" ++ n ++ "\x27"))
         (if uri == "" then [] else [quote uri])
         { taxon_name_query := n
           query_params := get_query_params "taxon"
           result_count := count_taxon_records (some root)
           validated := true
           retrieved_taxon_ids := ["93"]
           taxon_data_root := some root },
       Msg.text (generate_summary_text (some root) (count_taxon_records (some root)) n "taxon"),
       Msg.process "Taxon ID(s) obtained"
         ("Step 1.1: Successfully resolved taxon ID(s): **93** " ++
           ("for name \x27" ++ n ++ "\x27") ++ "."),
       Msg.process "Fetching trait data" "Step 2: Fetching trait data for taxon ID(s): **93**.",
       Msg.text (traitHttpErrorMsg "93" st rs u)] ∧
    (∃ s t, s ++ ("93" ++ t) = traitHttpErrorMsg "93" st rs u) ∧
    (∃ s t, s ++ (toString st ++ t) = traitHttpErrorMsg "93" st rs u) := by
  refine ⟨?_, ?_, ?_⟩
  · have e1 : fetch_data env ⟨some n, none⟩ = nameFlow env n := by
      simp [fetch_data, truthy, hn]
    rw [e1]
    simp only [nameFlow]
    rw [hf]
    simp only [taxonValidateFlow]
    rw [hv]
    simp only [hids]
    have hjoin : String.intercalate "," ["93"] = "93" := rfl
    simp only [hjoin]
    simp only [traitFlow]
    rw [ht]
    rfl
  · exact ⟨"API error fetching trait data for ID(s) \x27",
      "\x27: " ++ (toString st ++ (" " ++ (rs ++ (". URL: " ++ u)))), rfl⟩
  · refine ⟨"API error fetching trait data for ID(s) \x27" ++ ("93" ++ "\x27: "),
      " " ++ (rs ++ (". URL: " ++ u)), ?_⟩
    simp only [str_append_assoc]
    rfl

/-- Environment used to witness C8: the taxon tool resolves to the single ID
93 and the trait tool answers HTTP 404. -/
def c8Env : Env :=
  { taxonFetch := fun _ => ToolResult.ok
      (some (Json.obj [("93", Json.obj [("taxonID", Json.str "93"), ("taxon", Json.str "Anadara")])]))
      "https://t/taxon/Anadara/"
    traitFetch := fun _ => ToolResult.httpStatusError 404 "Not Found" "https://t/traits/93/"
    veText := fun _ => "" }

/-- Witness for C8 at the name Anadara resolving to 93 with a 404 trait
lookup. -/
theorem c8_trait_http_failure_witness :
    ("Anadara" ≠ "") ∧
    validateTaxonResponse
        (Json.obj [("93", Json.obj [("taxonID", Json.str "93"), ("taxon", Json.str "Anadara")])]) =
      some (Json.obj [("93", Json.obj [("taxonID", Json.str "93"), ("taxon", Json.str "Anadara")])]) ∧
    found_taxon_ids
        (Json.obj [("93", Json.obj [("taxonID", Json.str "93"), ("taxon", Json.str "Anadara")])]) =
      ["93"] ∧
    c8Env.traitFetch "93" = ToolResult.httpStatusError 404 "Not Found" "https://t/traits/93/" ∧
    (∃ s t, s ++ ("93" ++ t) = traitHttpErrorMsg "93" 404 "Not Found" "https://t/traits/93/") := by
  have h := c8_trait_http_failure c8Env "Anadara" (by decide)
    (Json.obj [("93", Json.obj [("taxonID", Json.str "93"), ("taxon", Json.str "Anadara")])])
    (Json.obj [("93", Json.obj [("taxonID", Json.str "93"), ("taxon", Json.str "Anadara")])])
    "https://t/taxon/Anadara/" 404 "Not Found" "https://t/traits/93/" rfl rfl rfl rfl
  exact ⟨by decide, rfl, rfl, rfl, h.2.1⟩

/-- C4: on the trait step a schema validation failure does not fail the
pipeline — the resolver emits the warning, falls back to the raw body with the
validated flag false, emits the extra zero-records warning exactly when the
counter applied to the raw data reports 0, and still produces the artifact,
the summary and the completion message; on the taxon step a schema validation
failure halts the pipeline immediately with no IDs extracted. -/
theorem c4_validation_fallback (env : Env) (idStr : String) (hid : idStr ≠ "")
    (ids : List String) (hsp : splitIds idStr = ids) (hne : ids.isEmpty = false)
    (qid : String) (hq : String.intercalate "," ids = qid) (hqne : (qid == "") = false)
    (traw : Json) (turi : String)
    (htf : env.traitFetch qid = ToolResult.ok (some traw) turi)
    (htv : validateTraitResponse traw = none)
    (nm : String) (hnm : nm ≠ "") (nraw : Json) (nuri : String)
    (hnf : env.taxonFetch nm = ToolResult.ok (some nraw) nuri)
    (hnv : validateTaxonResponse nraw = none) :
    (fetch_data env ⟨none, some idStr⟩ =
      Msg.process "Taxon ID(s) provided"
        ("Step 1: Using provided taxon ID(s): **" ++ qid ++ "**.") ::
      Msg.process "Fetching trait data"
        ("Step 2: Fetching trait data for taxon ID(s): **" ++ qid ++ "**.") ::
      Msg.text (traitValidationWarnMsg qid (env.veText traw)) ::
      ((if count_trait_records (some traw) == 0 then
          [Msg.text ("No parsable trait records found in the raw (unvalidated) data for ID(s) \x27" ++
            qid ++ "\x27.")]
        else []) ++
       Msg.traitArtifact
         ("Trait data for taxon ID(s): " ++ qid ++ " (validation failed, raw data)")
         (if turi == "" then [] else [quote turi])
         { taxon_ids_queried := pySplitComma qid
           query_params := get_query_params "trait"
           trait_count := count_trait_records (some traw)
           validated := false
           trait_data_root := some traw } ::
       Msg.text (generate_summary_text (some traw) (count_trait_records (some traw)) qid "trait") ::
       [Msg.process "Trait data fetch completed"
         ("Completed trait data retrieval for ID(s): **" ++ qid ++ "**")])) ∧
    (fetch_data env ⟨some nm, none⟩ =
      [Msg.process "Taxon name provided"
         ("Step 1: Searching for taxon information " ++ ("for name \x27" ++ nm ++ "\x27")),
       Msg.text (taxonValidationWarnMsg ("for name \x27" ++ nm ++ "\x27") (env.veText nraw))]) := by
  constructor
  · have e2 : fetch_data env ⟨none, some idStr⟩ = idFlow env idStr := by
      simp [fetch_data, truthy, hid]
    rw [e2]
    simp [idFlow, hsp, hne, hq, traitFlow, hqne, htf, traitValidateFlow, htv, traitReport]
  · have e1 : fetch_data env ⟨some nm, none⟩ = nameFlow env nm := by
      simp [fetch_data, truthy, hnm]
    rw [e1]
    simp only [nameFlow]
    rw [hnf]
    simp only [taxonValidateFlow]
    rw [hnv]

/-- Environment used to witness C4: both tools answer with a string body that
fails schema validation for both response models. -/
def c4Env : Env :=
  { taxonFetch := fun _ => ToolResult.ok (some (Json.str "bad")) "u1"
    traitFetch := fun _ => ToolResult.ok (some (Json.str "bad")) "u2"
    veText := fun _ => "E" }

/-- Witness for C4 at a string body that fails validation on both steps. -/
theorem c4_validation_fallback_witness :
    splitIds "94" = ["94"] ∧
    validateTraitResponse (Json.str "bad") = none ∧
    validateTaxonResponse (Json.str "bad") = none ∧
    fetch_data c4Env ⟨some "Anadara", none⟩ =
      [Msg.process "Taxon name provided"
         "Step 1: Searching for taxon information for name \x27Anadara\x27",
       Msg.text "Warning: Taxon API response validation failed for name \x27Anadara\x27: E. Trait fetching cannot proceed."] := by
  have h := c4_validation_fallback c4Env "94" (by decide) ["94"] rfl rfl "94" rfl rfl
    (Json.str "bad") "u2" rfl rfl "Anadara" (by decide) (Json.str "bad") "u1" rfl rfl
  exact ⟨rfl, rfl, rfl, h.2⟩
